import Mathlib

/-!
Verification of the `rdf_tranform` CDC-to-RDF pipeline (matchiq repository).

This file is a shallow embedding of the Python sources
`rdf_tranform/transform.py`, `rdf_tranform/transformer.py`,
`rdf_tranform/consumer.py` / `rdf_tranform/cdc.py` (the two files define the
same `CDCConsumer` logic), `rdf_tranform/versionning.py`, and the declarative
mapping registry in `rdf_tranform/config.py`.  Graphs are modelled as finite
sets of triples (rdflib `Graph` has set semantics: `add` of a present triple
is a no-op), and Python `None` is modelled explicitly.
-/

namespace RdfTransform

/-- An RDF node: either an IRI or a typed literal (rdflib `URIRef` /
`Literal`).  rdflib compares plain and typed literals by lexical form plus
datatype, and a `URIRef` never equals a `Literal`. -/
inductive Node where
  | uri (iri : String)
  | literal (lex : String) (datatype : Option String)
deriving DecidableEq, Repr

/-- A subject/predicate/object statement.  In this pipeline every subject and
every predicate is an IRI. -/
structure Triple where
  subj : String
  pred : String
  obj : Node
deriving DecidableEq, Repr

/-- A graph is a set of statements (rdflib `Graph` set semantics). -/
abbrev Graph := Finset Triple

/-- A Python attribute value as seen by `transform.py`: `None`, a scalar
rendered by its lexical form, or a referenced Django model instance
(carrying its class name and primary key). -/
inductive PyValue where
  | pyNone
  | pyLit (lex : String)
  | pyObj (className : String) (objId : Nat)
deriving DecidableEq, Repr

/-- A Django model instance: class name, primary key (`instance.id`) and the
attribute dictionary.  Mapped fields always exist on a model instance; a
field absent from `attrs` is treated as Python `None`. -/
structure Instance where
  className : String
  objId : Nat
  attrs : List (String × PyValue)
deriving DecidableEq, Repr

/-- `getattr(instance, field_name)` for the fields the mapping mentions. -/
def getattr (inst : Instance) (field : String) : PyValue :=
  (inst.attrs.lookup field).getD PyValue.pyNone

/-- Class name of a referenced instance (`value.__class__.__name__`).
Foreign-key fields of a Django model always hold model instances, so the
non-object branches are unreachable (Python would raise `AttributeError`). -/
def PyValue.refClass : PyValue → String
  | .pyObj c _ => c
  | _ => ""

/-- Primary key of a referenced instance (`value.id`); non-object branches
are unreachable as in `PyValue.refClass`. -/
def PyValue.refId : PyValue → Nat
  | .pyObj _ i => i
  | _ => 0

/-- Lexical form used when a value is wrapped in `Literal(value, datatype)`;
for scalars this is the value's rendering. -/
def PyValue.lexicalForm : PyValue → String
  | .pyLit s => s
  | .pyObj c i => c ++ "(" ++ Nat.repr i ++ ")"
  | .pyNone => "None"

/-! Namespace constants from `config.py` (rdflib `Namespace` members simply
concatenate the member name onto the namespace string). -/

def FOOTBALL : String := "http://example.org/football/"
def SCHEMA : String := "http://schema.org/"
def DCTERMS : String := "http://purl.org/dc/terms/"

def football (member : String) : String := FOOTBALL ++ member
def schema (member : String) : String := SCHEMA ++ member
def dcterms (member : String) : String := DCTERMS ++ member
def rdfs (member : String) : String :=
  "http://www.w3.org/2000/01/rdf-schema#" ++ member
def xsd (member : String) : String :=
  "http://www.w3.org/2001/XMLSchema#" ++ member

/-- `rdflib.RDF.type`. -/
def RDF_type : String := "http://www.w3.org/1999/02/22-rdf-syntax-ns#type"

/-- One entry of a mapping's `properties` dict:
`field_name: (predicate, datatype, *ref_model)`.  Scalar entries carry a
datatype and no `ref_model`; reference entries carry `None` as datatype and
the referenced entity type. -/
structure PropEntry where
  field : String
  predicate : String
  datatype : Option String
  ref_model : Option String
deriving DecidableEq, Repr

/-- One value of the `ENTITY_MAPPINGS` dict (`config.py`).  The
`inverse_relations` dict is carried for completeness; `transform_instance`
never reads it. -/
structure EntityMapping where
  rdf_class : String
  properties : List PropEntry
  inverse_relations : List (String × String × String)
deriving DecidableEq, Repr

/-- Scalar property entry `field: (predicate, datatype)`. -/
def litProp (field predicate datatype : String) : PropEntry :=
  ⟨field, predicate, some datatype, none⟩

/-- Reference property entry `field: (predicate, None, ref_model)`. -/
def refProp (field predicate refModel : String) : PropEntry :=
  ⟨field, predicate, none, some refModel⟩

/-! The `ENTITY_MAPPINGS` registry of `config.py`, one named record per
entry of the Python dict, in source order. -/

def mapping_Country : EntityMapping :=
  { rdf_class := football "Country"
    properties :=
      [ litProp "external_id" (football "externalId") (xsd "integer")
      , litProp "name" (schema "name") (xsd "string")
      , litProp "code" (football "countryCode") (xsd "string")
      , litProp "flag_url" (schema "image") (xsd "anyURI")
      , litProp "update_by" (dcterms "modifiedBy") (xsd "string")
      , litProp "update_at" (dcterms "modified") (xsd "dateTime") ]
    inverse_relations :=
      [ ("teams", football "hasTeam", "Team")
      , ("players", football "hasPlayer", "Player")
      , ("coaches", football "hasCoach", "Coach")
      , ("venues", football "hasVenue", "Venue")
      , ("leagues", football "hasLeague", "League") ] }

def mapping_Venue : EntityMapping :=
  { rdf_class := football "Venue"
    properties :=
      [ litProp "external_id" (football "externalId") (xsd "integer")
      , litProp "name" (schema "name") (xsd "string")
      , litProp "address" (schema "address") (xsd "string")
      , litProp "city" (schema "addressLocality") (xsd "string")
      , refProp "country" (football "country") "Country"
      , litProp "capacity" (football "capacity") (xsd "integer")
      , litProp "surface" (football "surfaceType") (xsd "string")
      , litProp "image_url" (schema "image") (xsd "anyURI")
      , litProp "update_by" (dcterms "modifiedBy") (xsd "string")
      , litProp "update_at" (dcterms "modified") (xsd "dateTime") ]
    inverse_relations :=
      [ ("home_teams", football "isHomeVenueFor", "Team")
      , ("fixtures", football "hostsFixture", "Fixture") ] }

def mapping_League : EntityMapping :=
  { rdf_class := football "League"
    properties :=
      [ litProp "external_id" (football "externalId") (xsd "integer")
      , litProp "name" (schema "name") (xsd "string")
      , litProp "type" (football "leagueType") (xsd "string")
      , litProp "logo_url" (schema "logo") (xsd "anyURI")
      , refProp "country" (football "country") "Country"
      , litProp "update_by" (dcterms "modifiedBy") (xsd "string")
      , litProp "update_at" (dcterms "modified") (xsd "dateTime") ]
    inverse_relations :=
      [ ("seasons", football "hasSeason", "Season")
      , ("fixtures", football "hasFixture", "Fixture")
      , ("standings", football "hasStanding", "Standing") ] }

def mapping_Team : EntityMapping :=
  { rdf_class := football "Team"
    properties :=
      [ litProp "external_id" (football "externalId") (xsd "integer")
      , litProp "name" (schema "name") (xsd "string")
      , litProp "code" (football "teamCode") (xsd "string")
      , refProp "country" (football "country") "Country"
      , litProp "founded" (schema "foundingDate") (xsd "gYear")
      , litProp "is_national" (football "isNationalTeam") (xsd "boolean")
      , litProp "logo_url" (schema "logo") (xsd "anyURI")
      , refProp "venue" (football "venue") "Venue"
      , litProp "total_matches" (football "totalMatches") (xsd "integer")
      , litProp "total_wins" (football "totalWins") (xsd "integer")
      , litProp "total_draws" (football "totalDraws") (xsd "integer")
      , litProp "total_losses" (football "totalLosses") (xsd "integer")
      , litProp "total_goals_scored" (football "totalGoalsScored") (xsd "integer")
      , litProp "total_goals_conceded" (football "totalGoalsConceded") (xsd "integer")
      , litProp "update_by" (dcterms "modifiedBy") (xsd "string")
      , litProp "update_at" (dcterms "modified") (xsd "dateTime") ]
    inverse_relations :=
      [ ("home_fixtures", football "hasHomeFixture", "Fixture")
      , ("away_fixtures", football "hasAwayFixture", "Fixture")
      , ("players", football "hasPlayer", "Player")
      , ("current_coach", football "hasCoach", "Coach")
      , ("venue", football "hasHomeVenue", "Venue")
      , ("standings", football "hasStanding", "Standing")
      , ("statistics", football "hasStatistics", "TeamStatistics")
      , ("squad", football "hasSquadMember", "TeamPlayer") ] }

def mapping_Season : EntityMapping :=
  { rdf_class := football "Season"
    properties :=
      [ litProp "external_id" (football "externalId") (xsd "integer")
      , refProp "league" (football "league") "League"
      , litProp "year" (dcterms "temporal") (xsd "gYear")
      , litProp "start_date" (dcterms "startDate") (xsd "date")
      , litProp "end_date" (dcterms "endDate") (xsd "date")
      , litProp "is_current" (football "isCurrentSeason") (xsd "boolean")
      , litProp "update_by" (dcterms "modifiedBy") (xsd "string")
      , litProp "update_at" (dcterms "modified") (xsd "dateTime") ]
    inverse_relations :=
      [ ("fixtures", football "hasFixture", "Fixture")
      , ("standings", football "hasStanding", "Standing")
      , ("player_teams", football "hasPlayerTeam", "PlayerTeam") ] }

def mapping_FixtureStatus : EntityMapping :=
  { rdf_class := football "FixtureStatus"
    properties :=
      [ litProp "short_code" (football "statusCode") (xsd "string")
      , litProp "long_description" (rdfs "label") (xsd "string")
      , litProp "status_type" (football "statusType") (xsd "string")
      , litProp "description" (dcterms "description") (xsd "string") ]
    inverse_relations := [] }

def mapping_Fixture : EntityMapping :=
  { rdf_class := football "Fixture"
    properties :=
      [ litProp "external_id" (football "externalId") (xsd "integer")
      , refProp "league" (football "league") "League"
      , refProp "season" (football "season") "Season"
      , litProp "round" (football "round") (xsd "string")
      , refProp "home_team" (football "homeTeam") "Team"
      , refProp "away_team" (football "awayTeam") "Team"
      , litProp "date" (schema "startDate") (xsd "dateTime")
      , refProp "venue" (football "venue") "Venue"
      , litProp "referee" (football "referee") (xsd "string")
      , refProp "status" (football "status") "FixtureStatus"
      , litProp "elapsed_time" (football "elapsedTime") (xsd "integer")
      , litProp "timezone" (dcterms "temporalResolution") (xsd "string")
      , litProp "home_score" (football "homeScore") (xsd "integer")
      , litProp "away_score" (football "awayScore") (xsd "integer")
      , litProp "is_finished" (football "isFinished") (xsd "boolean")
      , litProp "update_by" (dcterms "modifiedBy") (xsd "string")
      , litProp "update_at" (dcterms "modified") (xsd "dateTime") ]
    inverse_relations :=
      [ ("events", football "hasEvent", "FixtureEvent")
      , ("statistics", football "hasStatistic", "FixtureStatistic")
      , ("lineups", football "hasLineup", "FixtureLineup")
      , ("player_statistics", football "hasPlayerStatistic", "FixturePlayerStatistic")
      , ("scores", football "hasScore", "FixtureScore")
      , ("odds", football "hasOdds", "Odds") ] }

def mapping_FixtureScore : EntityMapping :=
  { rdf_class := football "FixtureScore"
    properties :=
      [ refProp "fixture" (football "fixture") "Fixture"
      , refProp "team" (football "team") "Team"
      , litProp "halftime" (football "halftimeScore") (xsd "integer")
      , litProp "fulltime" (football "fulltimeScore") (xsd "integer")
      , litProp "extratime" (football "extratimeScore") (xsd "integer")
      , litProp "penalty" (football "penaltyScore") (xsd "integer")
      , litProp "update_by" (dcterms "modifiedBy") (xsd "string")
      , litProp "update_at" (dcterms "modified") (xsd "dateTime") ]
    inverse_relations := [] }

def mapping_FixtureEvent : EntityMapping :=
  { rdf_class := football "FixtureEvent"
    properties :=
      [ refProp "fixture" (football "fixture") "Fixture"
      , litProp "time_elapsed" (football "eventTime") (xsd "integer")
      , litProp "event_type" (football "eventType") (xsd "string")
      , litProp "detail" (dcterms "description") (xsd "string")
      , refProp "player" (football "player") "Player"
      , refProp "assist" (football "assistPlayer") "Player"
      , refProp "team" (football "team") "Team"
      , litProp "comments" (rdfs "comment") (xsd "string")
      , litProp "update_by" (dcterms "modifiedBy") (xsd "string")
      , litProp "update_at" (dcterms "modified") (xsd "dateTime") ]
    inverse_relations := [] }

def mapping_FixtureStatistic : EntityMapping :=
  { rdf_class := football "FixtureStatistic"
    properties :=
      [ refProp "fixture" (football "fixture") "Fixture"
      , refProp "team" (football "team") "Team"
      , litProp "stat_type" (football "statisticType") (xsd "string")
      , litProp "value" (football "statisticValue") (xsd "decimal")
      , litProp "update_by" (dcterms "modifiedBy") (xsd "string")
      , litProp "update_at" (dcterms "modified") (xsd "dateTime") ]
    inverse_relations := [] }

def mapping_FixtureLineup : EntityMapping :=
  { rdf_class := football "FixtureLineup"
    properties :=
      [ refProp "fixture" (football "fixture") "Fixture"
      , refProp "team" (football "team") "Team"
      , litProp "formation" (football "formation") (xsd "string")
      , litProp "player_primary_color" (football "playerPrimaryColor") (xsd "string")
      , litProp "player_number_color" (football "playerNumberColor") (xsd "string")
      , litProp "player_border_color" (football "playerBorderColor") (xsd "string")
      , litProp "goalkeeper_primary_color" (football "goalkeeperPrimaryColor") (xsd "string")
      , litProp "goalkeeper_number_color" (football "goalkeeperNumberColor") (xsd "string")
      , litProp "goalkeeper_border_color" (football "goalkeeperBorderColor") (xsd "string")
      , litProp "update_by" (dcterms "modifiedBy") (xsd "string")
      , litProp "update_at" (dcterms "modified") (xsd "dateTime") ]
    inverse_relations := [] }

def mapping_FixtureLineupPlayer : EntityMapping :=
  { rdf_class := football "LineupPlayer"
    properties :=
      [ refProp "lineup" (football "lineup") "FixtureLineup"
      , refProp "player" (football "player") "Player"
      , litProp "number" (football "playerNumber") (xsd "integer")
      , litProp "position" (football "playerPosition") (xsd "string")
      , litProp "grid" (football "playerPositionGrid") (xsd "string")
      , litProp "is_substitute" (football "isSubstitute") (xsd "boolean")
      , litProp "update_by" (dcterms "modifiedBy") (xsd "string")
      , litProp "update_at" (dcterms "modified") (xsd "dateTime") ]
    inverse_relations := [] }

def mapping_FixtureCoach : EntityMapping :=
  { rdf_class := football "FixtureCoach"
    properties :=
      [ refProp "fixture" (football "fixture") "Fixture"
      , refProp "team" (football "team") "Team"
      , refProp "coach" (football "coach") "Coach"
      , litProp "update_by" (dcterms "modifiedBy") (xsd "string")
      , litProp "update_at" (dcterms "modified") (xsd "dateTime") ]
    inverse_relations := [] }

def mapping_Player : EntityMapping :=
  { rdf_class := football "Player"
    properties :=
      [ litProp "external_id" (football "externalId") (xsd "integer")
      , litProp "name" (schema "name") (xsd "string")
      , litProp "firstname" (schema "givenName") (xsd "string")
      , litProp "lastname" (schema "familyName") (xsd "string")
      , litProp "birth_date" (schema "birthDate") (xsd "date")
      , refProp "nationality" (football "nationality") "Country"
      , litProp "height" (schema "height") (xsd "integer")
      , litProp "weight" (schema "weight") (xsd "integer")
      , refProp "team" (football "currentTeam") "Team"
      , litProp "position" (football "playerPositionType") (xsd "string")
      , litProp "number" (football "playerNumber") (xsd "integer")
      , litProp "injured" (football "isInjured") (xsd "boolean")
      , litProp "photo_url" (schema "image") (xsd "anyURI")
      , litProp "season_goals" (football "seasonGoals") (xsd "integer")
      , litProp "season_assists" (football "seasonAssists") (xsd "integer")
      , litProp "season_yellow_cards" (football "seasonYellowCards") (xsd "integer")
      , litProp "season_red_cards" (football "seasonRedCards") (xsd "integer")
      , litProp "total_appearances" (football "totalAppearances") (xsd "integer")
      , litProp "update_by" (dcterms "modifiedBy") (xsd "string")
      , litProp "update_at" (dcterms "modified") (xsd "dateTime") ]
    inverse_relations :=
      [ ("events", football "hasEvent", "FixtureEvent")
      , ("statistics", football "hasStatistic", "PlayerStatistics")
      , ("injuries", football "hasInjury", "PlayerInjury")
      , ("transfers", football "hasTransfer", "PlayerTransfer")
      , ("teams_history", football "hasTeamHistory", "PlayerTeam")
      , ("lineup_appearances", football "hasLineupAppearance", "FixtureLineupPlayer")
      , ("sidelines", football "hasSideline", "PlayerSideline") ] }

def mapping_FixturePlayerStatistic : EntityMapping :=
  { rdf_class := football "FixturePlayerStatistic"
    properties :=
      [ refProp "fixture" (football "fixture") "Fixture"
      , refProp "player" (football "player") "Player"
      , refProp "team" (football "team") "Team"
      , litProp "minutes_played" (football "minutesPlayed") (xsd "integer")
      , litProp "position" (football "playerPosition") (xsd "string")
      , litProp "number" (football "playerNumber") (xsd "integer")
      , litProp "rating" (football "ratingValue") (xsd "decimal")
      , litProp "is_captain" (football "isCaptain") (xsd "boolean")
      , litProp "is_substitute" (football "isSubstitute") (xsd "boolean")
      , litProp "shots_total" (football "shotsTotal") (xsd "integer")
      , litProp "shots_on_target" (football "shotsOnTarget") (xsd "integer")
      , litProp "goals_scored" (football "goalsScored") (xsd "integer")
      , litProp "goals_conceded" (football "goalsConceded") (xsd "integer")
      , litProp "assists" (football "assists") (xsd "integer")
      , litProp "saves" (football "goalkeeperSaves") (xsd "integer")
      , litProp "passes_total" (football "passesTotal") (xsd "integer")
      , litProp "passes_key" (football "keyPasses") (xsd "integer")
      , litProp "passes_accuracy" (football "passAccuracy") (xsd "decimal")
      , litProp "tackles_total" (football "tacklesTotal") (xsd "integer")
      , litProp "blocks" (football "blocks") (xsd "integer")
      , litProp "interceptions" (football "interceptions") (xsd "integer")
      , litProp "duels_total" (football "duelsTotal") (xsd "integer")
      , litProp "duels_won" (football "duelsWon") (xsd "integer")
      , litProp "dribbles_attempts" (football "dribblesAttempts") (xsd "integer")
      , litProp "dribbles_success" (football "dribblesSuccess") (xsd "integer")
      , litProp "dribbles_past" (football "dribblesPast") (xsd "integer")
      , litProp "fouls_drawn" (football "foulsDrawn") (xsd "integer")
      , litProp "fouls_committed" (football "foulsCommitted") (xsd "integer")
      , litProp "yellow_cards" (football "yellowCards") (xsd "integer")
      , litProp "red_cards" (football "redCards") (xsd "integer")
      , litProp "penalties_won" (football "penaltiesWon") (xsd "integer")
      , litProp "penalties_committed" (football "penaltiesCommitted") (xsd "integer")
      , litProp "penalties_scored" (football "penaltiesScored") (xsd "integer")
      , litProp "penalties_missed" (football "penaltiesMissed") (xsd "integer")
      , litProp "penalties_saved" (football "penaltiesSaved") (xsd "integer")
      , litProp "offsides" (football "offsides") (xsd "integer")
      , litProp "update_by" (dcterms "modifiedBy") (xsd "string")
      , litProp "update_at" (dcterms "modified") (xsd "dateTime") ]
    inverse_relations := [] }

def mapping_PlayerStatistics : EntityMapping :=
  { rdf_class := football "PlayerAggregatedStatistic"
    properties :=
      [ refProp "player" (football "player") "Player"
      , refProp "fixture" (football "fixture") "Fixture"
      , refProp "team" (football "team") "Team"
      , litProp "minutes_played" (football "minutesPlayed") (xsd "integer")
      , litProp "goals" (football "goalsScored") (xsd "integer")
      , litProp "assists" (football "assists") (xsd "integer")
      , litProp "shots_total" (football "shotsTotal") (xsd "integer")
      , litProp "shots_on_target" (football "shotsOnTarget") (xsd "integer")
      , litProp "passes" (football "passesTotal") (xsd "integer")
      , litProp "key_passes" (football "keyPasses") (xsd "integer")
      , litProp "pass_accuracy" (football "passAccuracy") (xsd "decimal")
      , litProp "tackles" (football "tacklesTotal") (xsd "integer")
      , litProp "interceptions" (football "interceptions") (xsd "integer")
      , litProp "duels_total" (football "duelsTotal") (xsd "integer")
      , litProp "duels_won" (football "duelsWon") (xsd "integer")
      , litProp "dribbles_success" (football "dribblesSuccess") (xsd "integer")
      , litProp "fouls_committed" (football "foulsCommitted") (xsd "integer")
      , litProp "fouls_drawn" (football "foulsDrawn") (xsd "integer")
      , litProp "yellow_cards" (football "yellowCards") (xsd "integer")
      , litProp "red_cards" (football "redCards") (xsd "integer")
      , litProp "rating" (football "ratingValue") (xsd "decimal")
      , litProp "is_substitute" (football "isSubstitute") (xsd "boolean")
      , litProp "update_by" (dcterms "modifiedBy") (xsd "string")
      , litProp "update_at" (dcterms "modified") (xsd "dateTime") ]
    inverse_relations := [] }

def mapping_PlayerInjury : EntityMapping :=
  { rdf_class := football "PlayerInjury"
    properties :=
      [ refProp "player" (football "player") "Player"
      , refProp "fixture" (football "fixture") "Fixture"
      , litProp "type" (football "injuryType") (xsd "string")
      , litProp "severity" (football "injurySeverity") (xsd "string")
      , litProp "status" (football "injuryStatus") (xsd "string")
      , litProp "start_date" (dcterms "startDate") (xsd "date")
      , litProp "end_date" (dcterms "endDate") (xsd "date")
      , litProp "expected_return_date" (football "expectedReturnDate") (xsd "date")
      , litProp "recovery_time" (football "recoveryTime") (xsd "integer")
      , litProp "update_by" (dcterms "modifiedBy") (xsd "string")
      , litProp "update_at" (dcterms "modified") (xsd "dateTime") ]
    inverse_relations := [] }

def mapping_Coach : EntityMapping :=
  { rdf_class := football "Coach"
    properties :=
      [ litProp "external_id" (football "externalId") (xsd "integer")
      , litProp "name" (schema "name") (xsd "string")
      , litProp "firstname" (schema "givenName") (xsd "string")
      , litProp "lastname" (schema "familyName") (xsd "string")
      , refProp "nationality" (football "nationality") "Country"
      , litProp "birth_date" (schema "birthDate") (xsd "date")
      , refProp "team" (football "currentTeam") "Team"
      , litProp "photo_url" (schema "image") (xsd "anyURI")
      , litProp "career_matches" (football "careerMatches") (xsd "integer")
      , litProp "career_wins" (football "careerWins") (xsd "integer")
      , litProp "career_draws" (football "careerDraws") (xsd "integer")
      , litProp "career_losses" (football "careerLosses") (xsd "integer")
      , litProp "update_by" (dcterms "modifiedBy") (xsd "string")
      , litProp "update_at" (dcterms "modified") (xsd "dateTime") ]
    inverse_relations :=
      [ ("career_entries", football "hasCareerEntry", "CoachCareer")
      , ("fixture_appearances", football "hasFixtureAppearance", "FixtureCoach") ] }

def mapping_CoachCareer : EntityMapping :=
  { rdf_class := football "CoachCareer"
    properties :=
      [ refProp "coach" (football "coach") "Coach"
      , refProp "team" (football "team") "Team"
      , litProp "role" (football "coachRoleType") (xsd "string")
      , litProp "start_date" (dcterms "startDate") (xsd "date")
      , litProp "end_date" (dcterms "endDate") (xsd "date")
      , litProp "matches" (football "careerMatchesCount") (xsd "integer")
      , litProp "wins" (football "careerWinsCount") (xsd "integer")
      , litProp "draws" (football "careerDrawsCount") (xsd "integer")
      , litProp "losses" (football "careerLossesCount") (xsd "integer")
      , litProp "update_by" (dcterms "modifiedBy") (xsd "string")
      , litProp "update_at" (dcterms "modified") (xsd "dateTime") ]
    inverse_relations := [] }

def mapping_Bookmaker : EntityMapping :=
  { rdf_class := football "Bookmaker"
    properties :=
      [ litProp "external_id" (football "externalId") (xsd "integer")
      , litProp "name" (schema "name") (xsd "string")
      , litProp "logo_url" (schema "logo") (xsd "anyURI")
      , litProp "is_active" (football "isActive") (xsd "boolean")
      , litProp "priority" (football "priorityOrder") (xsd "integer")
      , litProp "update_by" (dcterms "modifiedBy") (xsd "string")
      , litProp "update_at" (dcterms "modified") (xsd "dateTime") ]
    inverse_relations := [ ("odds", football "hasOdds", "Odds") ] }

def mapping_OddsType : EntityMapping :=
  { rdf_class := football "OddsType"
    properties :=
      [ litProp "external_id" (football "externalId") (xsd "integer")
      , litProp "name" (schema "name") (xsd "string")
      , litProp "key" (football "oddsKey") (xsd "string")
      , litProp "description" (dcterms "description") (xsd "string")
      , litProp "category" (football "oddsCategoryType") (xsd "string")
      , litProp "display_order" (football "displayOrder") (xsd "integer")
      , litProp "update_by" (dcterms "modifiedBy") (xsd "string")
      , litProp "update_at" (dcterms "modified") (xsd "dateTime") ]
    inverse_relations := [] }

def mapping_OddsValue : EntityMapping :=
  { rdf_class := football "OddsValue"
    properties :=
      [ refProp "odds_type" (football "oddsType") "OddsType"
      , litProp "name" (schema "name") (xsd "string")
      , litProp "key" (football "oddsValueKey") (xsd "string")
      , litProp "display_order" (football "displayOrder") (xsd "integer")
      , litProp "update_by" (dcterms "modifiedBy") (xsd "string")
      , litProp "update_at" (dcterms "modified") (xsd "dateTime") ]
    inverse_relations := [] }

def mapping_Odds : EntityMapping :=
  { rdf_class := football "Odds"
    properties :=
      [ refProp "fixture" (football "fixture") "Fixture"
      , refProp "bookmaker" (football "bookmaker") "Bookmaker"
      , refProp "odds_type" (football "oddsType") "OddsType"
      , refProp "odds_value" (football "oddsValue") "OddsValue"
      , litProp "value" (football "oddsValueAmount") (xsd "decimal")
      , litProp "is_main" (football "isMainOdds") (xsd "boolean")
      , litProp "probability" (football "probabilityValue") (xsd "decimal")
      , litProp "status" (football "oddsStatusType") (xsd "string")
      , litProp "last_update" (dcterms "modified") (xsd "dateTime")
      , litProp "update_by" (dcterms "modifiedBy") (xsd "string")
      , litProp "update_at" (dcterms "modified") (xsd "dateTime") ]
    inverse_relations := [] }

def mapping_OddsHistory : EntityMapping :=
  { rdf_class := football "OddsHistory"
    properties :=
      [ refProp "odds" (football "odds") "Odds"
      , litProp "old_value" (football "oldOddsValue") (xsd "decimal")
      , litProp "new_value" (football "newOddsValue") (xsd "decimal")
      , litProp "change_time" (dcterms "created") (xsd "dateTime")
      , litProp "movement" (football "oddsMovementType") (xsd "string")
      , litProp "update_by" (dcterms "modifiedBy") (xsd "string")
      , litProp "update_at" (dcterms "modified") (xsd "dateTime") ]
    inverse_relations := [] }

def mapping_Standing : EntityMapping :=
  { rdf_class := football "Standing"
    properties :=
      [ refProp "season" (football "season") "Season"
      , refProp "team" (football "team") "Team"
      , litProp "rank" (football "rankingPosition") (xsd "integer")
      , litProp "points" (football "pointsTotal") (xsd "integer")
      , litProp "goals_diff" (football "goalDifference") (xsd "integer")
      , litProp "form" (football "form") (xsd "string")
      , litProp "status" (football "standingStatusType") (xsd "string")
      , litProp "description" (dcterms "description") (xsd "string")
      , litProp "played" (football "matchesPlayedCount") (xsd "integer")
      , litProp "won" (football "matchesWonCount") (xsd "integer")
      , litProp "drawn" (football "matchesDrawnCount") (xsd "integer")
      , litProp "lost" (football "matchesLostCount") (xsd "integer")
      , litProp "goals_for" (football "goalsForCount") (xsd "integer")
      , litProp "goals_against" (football "goalsAgainstCount") (xsd "integer")
      , litProp "home_played" (football "homeMatchesPlayedCount") (xsd "integer")
      , litProp "home_won" (football "homeMatchesWonCount") (xsd "integer")
      , litProp "home_drawn" (football "homeMatchesDrawnCount") (xsd "integer")
      , litProp "home_lost" (football "homeMatchesLostCount") (xsd "integer")
      , litProp "home_goals_for" (football "homeGoalsForCount") (xsd "integer")
      , litProp "home_goals_against" (football "homeGoalsAgainstCount") (xsd "integer")
      , litProp "away_played" (football "awayMatchesPlayedCount") (xsd "integer")
      , litProp "away_won" (football "awayMatchesWonCount") (xsd "integer")
      , litProp "away_drawn" (football "awayMatchesDrawnCount") (xsd "integer")
      , litProp "away_lost" (football "awayMatchesLostCount") (xsd "integer")
      , litProp "away_goals_for" (football "awayGoalsForCount") (xsd "integer")
      , litProp "away_goals_against" (football "awayGoalsAgainstCount") (xsd "integer")
      , litProp "update_by" (dcterms "modifiedBy") (xsd "string")
      , litProp "update_at" (dcterms "modified") (xsd "dateTime") ]
    inverse_relations := [] }

def mapping_PlayerSideline : EntityMapping :=
  { rdf_class := football "PlayerSideline"
    properties :=
      [ refProp "player" (football "player") "Player"
      , litProp "type" (football "sidelineType") (xsd "string")
      , litProp "start_date" (dcterms "startDate") (xsd "date")
      , litProp "end_date" (dcterms "endDate") (xsd "date")
      , litProp "update_by" (dcterms "modifiedBy") (xsd "string")
      , litProp "update_at" (dcterms "modified") (xsd "dateTime") ]
    inverse_relations := [] }

def mapping_PlayerTransfer : EntityMapping :=
  { rdf_class := football "PlayerTransfer"
    properties :=
      [ refProp "player" (football "player") "Player"
      , litProp "date" (dcterms "date") (xsd "date")
      , litProp "type" (football "transferType") (xsd "string")
      , refProp "team_in" (football "teamIn") "Team"
      , refProp "team_out" (football "teamOut") "Team"
      , litProp "update_by" (dcterms "modifiedBy") (xsd "string")
      , litProp "update_at" (dcterms "modified") (xsd "dateTime") ]
    inverse_relations := [] }

def mapping_PlayerTeam : EntityMapping :=
  { rdf_class := football "PlayerTeamHistory"
    properties :=
      [ refProp "player" (football "player") "Player"
      , refProp "team" (football "team") "Team"
      , refProp "season" (football "season") "Season"
      , litProp "is_current" (football "isCurrentTeamForSeason") (xsd "boolean")
      , litProp "update_by" (dcterms "modifiedBy") (xsd "string")
      , litProp "update_at" (dcterms "modified") (xsd "dateTime") ]
    inverse_relations := [] }

def mapping_TeamPlayer : EntityMapping :=
  { rdf_class := football "TeamSquadMember"
    properties :=
      [ refProp "team" (football "team") "Team"
      , refProp "player" (football "player") "Player"
      , litProp "position" (football "playerPositionType") (xsd "string")
      , litProp "number" (football "playerNumber") (xsd "integer")
      , litProp "is_active" (football "isActiveSquadMember") (xsd "boolean")
      , litProp "update_by" (dcterms "modifiedBy") (xsd "string")
      , litProp "update_at" (dcterms "modified") (xsd "dateTime") ]
    inverse_relations := [] }

def mapping_TeamStatistics : EntityMapping :=
  { rdf_class := football "TeamSeasonStatistics"
    properties :=
      [ refProp "team" (football "team") "Team"
      , refProp "league" (football "league") "League"
      , refProp "season" (football "season") "Season"
      , litProp "form" (football "form") (xsd "string")
      , litProp "matches_played_home" (football "homeMatchesPlayedCount") (xsd "integer")
      , litProp "matches_played_away" (football "awayMatchesPlayedCount") (xsd "integer")
      , litProp "matches_played_total" (football "totalMatchesPlayedCount") (xsd "integer")
      , litProp "wins_home" (football "homeWinsCount") (xsd "integer")
      , litProp "wins_away" (football "awayWinsCount") (xsd "integer")
      , litProp "wins_total" (football "totalWinsCount") (xsd "integer")
      , litProp "draws_home" (football "homeDrawsCount") (xsd "integer")
      , litProp "draws_away" (football "awayDrawsCount") (xsd "integer")
      , litProp "draws_total" (football "totalDrawsCount") (xsd "integer")
      , litProp "losses_home" (football "homeLossesCount") (xsd "integer")
      , litProp "losses_away" (football "awayLossesCount") (xsd "integer")
      , litProp "losses_total" (football "totalLossesCount") (xsd "integer")
      , litProp "goals_for_home" (football "homeGoalsForCount") (xsd "integer")
      , litProp "goals_for_away" (football "awayGoalsForCount") (xsd "integer")
      , litProp "goals_for_total" (football "totalGoalsForCount") (xsd "integer")
      , litProp "goals_against_home" (football "homeGoalsAgainstCount") (xsd "integer")
      , litProp "goals_against_away" (football "awayGoalsAgainstCount") (xsd "integer")
      , litProp "goals_against_total" (football "totalGoalsAgainstCount") (xsd "integer")
      , litProp "goals_for_average_home" (football "homeGoalsForAverage") (xsd "decimal")
      , litProp "goals_for_average_away" (football "awayGoalsForAverage") (xsd "decimal")
      , litProp "goals_for_average_total" (football "totalGoalsForAverage") (xsd "decimal")
      , litProp "goals_against_average_home" (football "homeGoalsAgainstAverage") (xsd "decimal")
      , litProp "goals_against_average_away" (football "awayGoalsAgainstAverage") (xsd "decimal")
      , litProp "goals_against_average_total" (football "totalGoalsAgainstAverage") (xsd "decimal")
      , litProp "streak_wins" (football "winningStreak") (xsd "integer")
      , litProp "streak_draws" (football "drawingStreak") (xsd "integer")
      , litProp "streak_losses" (football "losingStreak") (xsd "integer")
      , litProp "biggest_win_home" (football "biggestHomeWin") (xsd "string")
      , litProp "biggest_win_away" (football "biggestAwayWin") (xsd "string")
      , litProp "biggest_loss_home" (football "biggestHomeLoss") (xsd "string")
      , litProp "biggest_loss_away" (football "biggestAwayLoss") (xsd "string")
      , litProp "clean_sheets_home" (football "homeCleanSheetsCount") (xsd "integer")
      , litProp "clean_sheets_away" (football "awayCleanSheetsCount") (xsd "integer")
      , litProp "clean_sheets_total" (football "totalCleanSheetsCount") (xsd "integer")
      , litProp "failed_to_score_home" (football "homeFailedToScoreCount") (xsd "integer")
      , litProp "failed_to_score_away" (football "awayFailedToScoreCount") (xsd "integer")
      , litProp "failed_to_score_total" (football "totalFailedToScoreCount") (xsd "integer")
      , litProp "penalties_scored" (football "penaltiesScoredCount") (xsd "integer")
      , litProp "penalties_missed" (football "penaltiesMissedCount") (xsd "integer")
      , litProp "penalties_total" (football "totalPenaltiesCount") (xsd "integer")
      , litProp "update_by" (dcterms "modifiedBy") (xsd "string")
      , litProp "update_at" (dcterms "modified") (xsd "dateTime") ]
    inverse_relations := [] }

/-- The `ENTITY_MAPPINGS` dict of `config.py`, in source key order.  This is
the registry `transform.py` imports. -/
def ENTITY_MAPPINGS : List (String × EntityMapping) :=
  [ ("Country", mapping_Country)
  , ("Venue", mapping_Venue)
  , ("League", mapping_League)
  , ("Team", mapping_Team)
  , ("Season", mapping_Season)
  , ("FixtureStatus", mapping_FixtureStatus)
  , ("Fixture", mapping_Fixture)
  , ("FixtureScore", mapping_FixtureScore)
  , ("FixtureEvent", mapping_FixtureEvent)
  , ("FixtureStatistic", mapping_FixtureStatistic)
  , ("FixtureLineup", mapping_FixtureLineup)
  , ("FixtureLineupPlayer", mapping_FixtureLineupPlayer)
  , ("FixtureCoach", mapping_FixtureCoach)
  , ("Player", mapping_Player)
  , ("FixturePlayerStatistic", mapping_FixturePlayerStatistic)
  , ("PlayerStatistics", mapping_PlayerStatistics)
  , ("PlayerInjury", mapping_PlayerInjury)
  , ("Coach", mapping_Coach)
  , ("CoachCareer", mapping_CoachCareer)
  , ("Bookmaker", mapping_Bookmaker)
  , ("OddsType", mapping_OddsType)
  , ("OddsValue", mapping_OddsValue)
  , ("Odds", mapping_Odds)
  , ("OddsHistory", mapping_OddsHistory)
  , ("Standing", mapping_Standing)
  , ("PlayerSideline", mapping_PlayerSideline)
  , ("PlayerTransfer", mapping_PlayerTransfer)
  , ("PlayerTeam", mapping_PlayerTeam)
  , ("TeamPlayer", mapping_TeamPlayer)
  , ("TeamStatistics", mapping_TeamStatistics) ]

/-- The smaller registry hard-coded inside `transformer.py`'s
`RDFTransformer.__init__` — the transformer the `CDCConsumer` actually
instantiates. -/
def TRANSFORMER_ENTITY_MAPPINGS : List (String × EntityMapping) :=
  [ ("Country",
      { rdf_class := football "Country"
        properties :=
          [ litProp "name" (schema "name") (xsd "string")
          , litProp "code" (football "countryCode") (xsd "string")
          , litProp "flag_url" (schema "image") (xsd "anyURI") ]
        inverse_relations := [] })
  , ("Team",
      { rdf_class := football "Team"
        properties :=
          [ litProp "name" (schema "name") (xsd "string")
          , litProp "code" (football "teamCode") (xsd "string")
          , litProp "founded" (schema "foundingDate") (xsd "gYear")
          , litProp "is_national" (football "isNationalTeam") (xsd "boolean")
          , litProp "logo_url" (schema "image") (xsd "anyURI")
          , litProp "total_matches" (football "totalMatches") (xsd "integer")
          , litProp "total_wins" (football "totalWins") (xsd "integer")
          , refProp "country" (football "country") "Country"
          , refProp "venue" (football "homeVenue") "Venue" ]
        inverse_relations := [] }) ]

/-- Python's `str.lower()` (model class names are ASCII). -/
def strToLower (s : String) : String := ⟨s.data.map Char.toLower⟩

/-- `RDFTransformer._get_uri_for_entity` (transform.py lines 11-14):
`URIRef(f"{FOOTBALL}{model_name.lower()}/{model_instance.id}")`. -/
def _get_uri_for_entity (inst : Instance) : String :=
  FOOTBALL ++ strToLower inst.className ++ "/" ++ Nat.repr inst.objId

/-- The triple added for one non-null mapped field (transform.py lines 29-39):
a reference field (`if ref_model:`) links to the referenced entity's IRI,
otherwise the value becomes `Literal(value, datatype)`. -/
def prop_triple (subject : String) (p : PropEntry) (value : PyValue) : Triple :=
  if p.ref_model.isSome then
    ⟨subject, p.predicate,
      Node.uri (FOOTBALL ++ strToLower value.refClass ++ "/" ++ Nat.repr value.refId)⟩
  else
    ⟨subject, p.predicate, Node.literal value.lexicalForm p.datatype⟩

/-- The list of `graph.add` calls performed by `transform_instance` for a
mapped instance: the type triple, then one triple per property whose value
is not `None` (`if value is None: continue`). -/
def transform_statements (inst : Instance) (m : EntityMapping) : List Triple :=
  ⟨_get_uri_for_entity inst, RDF_type, Node.uri m.rdf_class⟩ ::
    m.properties.filterMap fun p =>
      let value := getattr inst p.field
      if value = PyValue.pyNone then none
      else some (prop_triple (_get_uri_for_entity inst) p value)

/-- `RDFTransformer.transform_instance` against a given registry
(transform.py lines 16-41): an unmapped class name returns early leaving the
graph untouched; otherwise every statement of `transform_statements` is
added to the graph. -/
def transform_instance_with (registry : List (String × EntityMapping))
    (g : Graph) (inst : Instance) : Graph :=
  match registry.lookup inst.className with
  | none => g
  | some m => (transform_statements inst m).foldl (fun g t => insert t g) g

/-- `transform.py`'s `RDFTransformer.transform_instance`, which reads the
`ENTITY_MAPPINGS` registry imported from `config.py`. -/
def transform_instance (g : Graph) (inst : Instance) : Graph :=
  transform_instance_with ENTITY_MAPPINGS g inst

/-- `transformer.py`'s `RDFTransformer.transform_instance` (same algorithm,
reading the registry hard-coded in its `__init__`); this is the transformer
`CDCConsumer` instantiates. -/
def transformer_transform_instance (g : Graph) (inst : Instance) : Graph :=
  transform_instance_with TRANSFORMER_ENTITY_MAPPINGS g inst

/-! ## CDC consumer (`consumer.py` and `cdc.py`, identical `CDCConsumer`) -/

/-- One element of `self.buffer`:
`{'operation': operation, 'instance': instance, 'model': model}`. -/
structure Change where
  operation : String
  inst : Instance
  model : String
deriving DecidableEq, Repr

/-- The mutable state of a `CDCConsumer`: the transformer's graph and the
message buffer (`self.buffer`, flushed at `self.buffer_size`). -/
structure CDCConsumer where
  graph : Graph
  buffer : List Change
  buffer_size : Nat
deriving DecidableEq

/-- The `for change in self.buffer` loop of `process_buffer`.  The
per-change call `self.transformer.transform_instance(change['instance'])`
can raise in Python, so the embedding takes it as a `step` returning
`Except`; an exception carries the graph state reached so far. -/
def run_buffer_loop (step : Graph → Change → Except String Graph) :
    Graph → List Change → Except (String × Graph) Graph
  | g, [] => .ok g
  | g, change :: rest =>
    if change.operation = "c" ∨ change.operation = "u" then
      match step g change with
      | .ok g' => run_buffer_loop step g' rest
      | .error e => .error (e, g)
    else
      run_buffer_loop step g rest

/-- `CDCConsumer.process_buffer` (consumer.py lines 44-52, cdc.py lines
46-60): run the loop inside `try`; on success clear the buffer; on any
exception print `Error processing buffer: ...` and also clear the buffer.
The returned `Option String` is the printed error message, if any. -/
def process_buffer_with (step : Graph → Change → Except String Graph)
    (c : CDCConsumer) : CDCConsumer × Option String :=
  match run_buffer_loop step c.graph c.buffer with
  | .ok g => ({ c with graph := g, buffer := [] }, none)
  | .error (e, g) =>
    ({ c with graph := g, buffer := [] }, some ("Error processing buffer: " ++ e))

/-- `process_buffer` with the actual per-change step: the (total)
transformation of `transformer.py`. -/
def process_buffer (c : CDCConsumer) : CDCConsumer :=
  (process_buffer_with
    (fun g change => .ok (transformer_transform_instance g change.inst)) c).1

/-- The decoded JSON of one CDC message as `process_message` reads it:
`data['source']['table']`, `data['op']`, `data['payload']['id']`.  A
missing key is `none` (the Python subscript raises `KeyError`). -/
structure RawMessage where
  source_table : Option String
  op : Option String
  payload_id : Option Nat
deriving DecidableEq, Repr

/-- The external collaborators of `process_message`: `apps.get_model`
(table name to model class, raising `LookupError` when unknown) and
`model.objects.get(id=...)` (raising `DoesNotExist` when absent). -/
structure Db where
  get_model : String → Option String
  fetch : String → Nat → Option Instance

/-- Subscript / lookup that raises the named exception when the key is
absent. -/
def raising {α : Type} (errName : String) : Option α → Except String α
  | some v => .ok v
  | none => .error errName

/-- The `try` body of `CDCConsumer.process_message` (consumer.py lines
18-42, cdc.py lines 18-44): extract table and op, resolve the model,
fetch-and-buffer for `c`/`u`, `pass` for `d`, fall through silently for any
other op code, then flush the buffer if it reached `buffer_size`. -/
def process_message_body (db : Db) (c : CDCConsumer) (msg : RawMessage) :
    Except String CDCConsumer := do
  let table ← raising "KeyError" msg.source_table
  let op ← raising "KeyError" msg.op
  let model ← raising "LookupError" (db.get_model table)
  let c ←
    if op = "c" ∨ op = "u" then do
      let pid ← raising "KeyError" msg.payload_id
      let inst ← raising "DoesNotExist" (db.fetch model pid)
      pure { c with buffer := c.buffer ++ [⟨op, inst, model⟩] }
    else if op = "d" then
      pure c
    else
      pure c
  if c.buffer.length ≥ c.buffer_size then pure (process_buffer c) else pure c

/-- `CDCConsumer.process_message`: the body above wrapped in
`try/except Exception`, which prints `Error processing message: ...` and
returns, leaving the state unchanged (every raising operation of the body
precedes its state updates).  The `Option String` is the printed error. -/
def process_message (db : Db) (c : CDCConsumer) (msg : RawMessage) :
    CDCConsumer × Option String :=
  match process_message_body db c msg with
  | .ok c' => (c', none)
  | .error e => (c, some ("Error processing message: " ++ e))

/-- The `while True` loop of `CDCConsumer.run` applied to a finite stream of
delivered messages: each successive message is handed to
`process_message` (`None` polls and error markers are skipped by
`continue` and do not reach it). -/
def run_messages (db : Db) (c : CDCConsumer) (msgs : List RawMessage) :
    CDCConsumer :=
  msgs.foldl (fun c msg => (process_message db c msg).1) c

/-! ## Versioned store (`versionning.py`) -/

/-- One element of the `changes` argument of `create_version`:
`{'type': 'add' | 'remove', 'triple': triple}`. -/
structure GraphChange where
  type : String
  triple : Triple
deriving DecidableEq, Repr

/-- The `for change in changes` body of `create_version`: `add` inserts the
triple, `remove` deletes it, any other tag is ignored. -/
def apply_change (g : Graph) (change : GraphChange) : Graph :=
  if change.type = "add" then insert change.triple g
  else if change.type = "remove" then g.erase change.triple
  else g

/-- `VersionedRDFStore` state: the store URI and `self.current_graph`. -/
structure VersionedRDFStore where
  store_uri : String
  current_graph : Graph
deriving DecidableEq

/-- `VersionedRDFStore.create_version` (versionning.py lines 12-34): build
`version_uri`, copy `self.current_graph` into a fresh `version_graph`,
apply the changes to the copy, and return the uri.  The version metadata
store is unimplemented in the source ("Implementation depends on your
chosen graph database"), so the locally built `version_graph` — which the
source discards without persisting — is returned alongside the store state
after the call. -/
def create_version (st : VersionedRDFStore) (changes : List GraphChange)
    (timestamp : String) : VersionedRDFStore × String × Graph :=
  let version_uri := st.store_uri ++ "/version/" ++ timestamp
  let version_graph := changes.foldl apply_change st.current_graph
  (st, version_uri, version_graph)

/-- `VersionedRDFStore.get_version` (versionning.py lines 36-39): the body
is `pass`, so every call returns Python `None` — no statement set is ever
reconstructed. -/
def get_version (_st : VersionedRDFStore) (_version_uri : String) :
    Option Graph :=
  none

/-- A sequence of `create_version` calls against one store, threading the
store state and collecting each call's `(version_uri, version_graph)`. -/
def run_create_versions (st : VersionedRDFStore)
    (calls : List (List GraphChange × String)) :
    VersionedRDFStore × List (String × Graph) :=
  match calls with
  | [] => (st, [])
  | (changes, ts) :: rest =>
    let r := create_version st changes ts
    let rec' := run_create_versions r.1 rest
    (rec'.1, (r.2.1, r.2.2) :: rec'.2)

/-! ## Basic lemmas about the embedding -/

/-- Adding a list of triples one by one is set union with the list's
elements. -/
theorem foldl_insert_eq_union (l : List Triple) (g : Graph) :
    l.foldl (fun g t => insert t g) g = g ∪ l.toFinset := by
  induction l generalizing g with
  | nil => simp
  | cons t rest ih =>
    simp only [List.foldl_cons, ih, List.toFinset_cons]
    ext x
    simp only [Finset.mem_union, Finset.mem_insert, List.mem_toFinset]
    tauto

/-- `transform_instance_with` on a mapped class adds exactly the statements
of `transform_statements`. -/
theorem transform_instance_with_mapped
    (registry : List (String × EntityMapping)) (g : Graph) (inst : Instance)
    (m : EntityMapping) (h : registry.lookup inst.className = some m) :
    transform_instance_with registry g inst =
      g ∪ (transform_statements inst m).toFinset := by
  simp [transform_instance_with, h, foldl_insert_eq_union]

/-- `transform_instance_with` on an unmapped class is the identity. -/
theorem transform_instance_with_unmapped
    (registry : List (String × EntityMapping)) (g : Graph) (inst : Instance)
    (h : registry.lookup inst.className = none) :
    transform_instance_with registry g inst = g := by
  simp [transform_instance_with, h]

/-- No property predicate of the `config.py` registry is `rdf:type`, so the
type triple is distinguishable from every property triple. -/
theorem registry_predicate_ne_rdf_type :
    ∀ e ∈ ENTITY_MAPPINGS, ∀ p ∈ e.2.properties, p.predicate ≠ RDF_type := by
  decide

/-- The predicate of a property triple is the mapping's predicate, in both
the reference and the literal branch. -/
theorem prop_triple_pred (subject : String) (p : PropEntry) (v : PyValue) :
    (prop_triple subject p v).pred = p.predicate := by
  unfold prop_triple
  split <;> rfl

/-- The subject of a property triple is the given subject. -/
theorem prop_triple_subj (subject : String) (p : PropEntry) (v : PyValue) :
    (prop_triple subject p v).subj = subject := by
  unfold prop_triple
  split <;> rfl

/-- A successful association-list lookup pins down a member of the list. -/
theorem lookup_eq_some_mem {α β : Type} [BEq α] [LawfulBEq α]
    {l : List (α × β)} {k : α} {v : β} (h : l.lookup k = some v) :
    (k, v) ∈ l := by
  induction l with
  | nil => simp [List.lookup] at h
  | cons hd tl ih =>
    rw [List.lookup] at h
    split at h
    · next heq =>
      cases hd
      simp only [Option.some.injEq] at h
      simp_all [beq_iff_eq]
    · exact List.mem_cons_of_mem _ (ih h)

/-- The statements produced for a mapped instance, characterized as a set:
the type triple, plus exactly the property triples of the non-`None`
fields. -/
theorem mem_transform_statements (inst : Instance) (m : EntityMapping)
    (t : Triple) :
    t ∈ transform_statements inst m ↔
      t = ⟨_get_uri_for_entity inst, RDF_type, Node.uri m.rdf_class⟩ ∨
        ∃ p ∈ m.properties, getattr inst p.field ≠ PyValue.pyNone ∧
          t = prop_triple (_get_uri_for_entity inst) p (getattr inst p.field) := by
  simp only [transform_statements, List.mem_cons, List.mem_filterMap]
  constructor
  · rintro (rfl | ⟨p, hp, hsome⟩)
    · exact Or.inl rfl
    · right
      by_cases hnone : getattr inst p.field = PyValue.pyNone
      · simp [hnone] at hsome
      · simp only [hnone, if_false, Option.some.injEq] at hsome
        exact ⟨p, hp, hnone, hsome.symm⟩
  · rintro (rfl | ⟨p, hp, hnone, rfl⟩)
    · exact Or.inl rfl
    · right
      exact ⟨p, hp, by simp [hnone]⟩

/-! ## C5: update idempotence -/

/-- C5.  For every Update event and every starting statement set,
transforming and applying the same event twice in succession
(`transform_instance` is how `process_buffer` applies both Create and
Update events) yields exactly the statement set of applying it once:
rdflib graphs are sets and `transform_instance` re-adds the same
statements. -/
theorem transform_update_idempotent (g : Graph) (inst : Instance) :
    transform_instance (transform_instance g inst) inst =
      transform_instance g inst := by
  unfold transform_instance transform_instance_with
  cases h : ENTITY_MAPPINGS.lookup inst.className with
  | none => simp
  | some m =>
    simp only [foldl_insert_eq_union, Finset.union_assoc, Finset.union_self]

/-! ## C1: statements produced for a mapped Create event -/

/-- C1.  For a Create event of a mapped entity type `T` with primary key
`k` (an instance of class `T`), the set of statements produced by the
transformation is exactly what `transform_instance` adds to the graph, it
contains exactly one type statement — `(uri(T,k), rdf:type, T's mapped
class)` —, it contains the statement of every mapped field or reference
whose value is non-null, and every other statement in it is the statement
of some non-null mapped field: no statement is produced for a null
field. -/
theorem transform_create_added_set (T : String) (m : EntityMapping)
    (hm : ENTITY_MAPPINGS.lookup T = some m) (inst : Instance)
    (hT : inst.className = T) :
    (∀ g : Graph,
      transform_instance g inst = g ∪ (transform_statements inst m).toFinset)
    ∧ (transform_statements inst m).toFinset.filter
        (fun t => t.pred = RDF_type) =
        {⟨_get_uri_for_entity inst, RDF_type, Node.uri m.rdf_class⟩}
    ∧ (∀ p ∈ m.properties, getattr inst p.field ≠ PyValue.pyNone →
        prop_triple (_get_uri_for_entity inst) p (getattr inst p.field) ∈
          (transform_statements inst m).toFinset)
    ∧ (∀ t ∈ (transform_statements inst m).toFinset, t.pred ≠ RDF_type →
        ∃ p ∈ m.properties, getattr inst p.field ≠ PyValue.pyNone ∧
          t = prop_triple (_get_uri_for_entity inst) p (getattr inst p.field)) := by
  have hne : ∀ p ∈ m.properties, p.predicate ≠ RDF_type :=
    registry_predicate_ne_rdf_type (T, m) (lookup_eq_some_mem hm)
  have hlook : ENTITY_MAPPINGS.lookup inst.className = some m := by
    rw [hT]; exact hm
  refine ⟨fun g => transform_instance_with_mapped _ g inst m hlook, ?_, ?_, ?_⟩
  · ext t
    simp only [Finset.mem_filter, List.mem_toFinset, mem_transform_statements,
      Finset.mem_singleton]
    constructor
    · rintro ⟨rfl | ⟨p, hp, _, rfl⟩, hpred⟩
      · rfl
      · rw [prop_triple_pred] at hpred
        exact absurd hpred (hne p hp)
    · rintro rfl
      exact ⟨Or.inl rfl, rfl⟩
  · intro p hp hnone
    rw [List.mem_toFinset, mem_transform_statements]
    exact Or.inr ⟨p, hp, hnone, rfl⟩
  · intro t ht hpred
    rw [List.mem_toFinset, mem_transform_statements] at ht
    rcases ht with rfl | hprop
    · exact absurd rfl hpred
    · exact hprop

/-- A concrete `Country` instance: primary key 7, `name` and `code` set,
`flag_url` explicitly null, the remaining mapped fields absent (null). -/
def instFrance : Instance :=
  ⟨"Country", 7,
    [("name", PyValue.pyLit "France"), ("code", PyValue.pyLit "FR"),
     ("flag_url", PyValue.pyNone)]⟩

/-- Witness for C1 at the concrete `Country` mapping and instance. -/
theorem transform_create_added_set_witness :
    (∀ g : Graph,
      transform_instance g instFrance =
        g ∪ (transform_statements instFrance mapping_Country).toFinset)
    ∧ (transform_statements instFrance mapping_Country).toFinset.filter
        (fun t => t.pred = RDF_type) =
        {⟨_get_uri_for_entity instFrance, RDF_type,
          Node.uri mapping_Country.rdf_class⟩}
    ∧ (∀ p ∈ mapping_Country.properties,
        getattr instFrance p.field ≠ PyValue.pyNone →
        prop_triple (_get_uri_for_entity instFrance) p
            (getattr instFrance p.field) ∈
          (transform_statements instFrance mapping_Country).toFinset)
    ∧ (∀ t ∈ (transform_statements instFrance mapping_Country).toFinset,
        t.pred ≠ RDF_type →
        ∃ p ∈ mapping_Country.properties,
          getattr instFrance p.field ≠ PyValue.pyNone ∧
            t = prop_triple (_get_uri_for_entity instFrance) p
              (getattr instFrance p.field)) :=
  transform_create_added_set "Country" mapping_Country (by decide) instFrance
    rfl

/-! ## C9: the transformer only ever adds statements -/

/-- C9 (implicit).  `transform_instance` never removes a statement: the
graph after a call is a superset of the graph before, for every instance
and every prior graph — in particular an Update never retracts statements
previously emitted for the same subject. -/
theorem transform_graph_monotone (g : Graph) (inst : Instance) :
    g ⊆ transform_instance g inst := by
  unfold transform_instance transform_instance_with
  cases h : ENTITY_MAPPINGS.lookup inst.className with
  | none => simp
  | some m =>
    simp only [foldl_insert_eq_union]
    exact Finset.subset_union_left

/-! ## C6: the subject-IRI builder -/

/-- Modelled from the spec: the deterministic IRI shape
`<namespace>/<entityType>/<id>` of spec sections 4.1 and 6, for comparison
with the builder in the source (`<entityType>` is the CDC entity-type /
table name, which is the lowercased model class name — the spec's own
example IRIs are `team/42`, `country/7`). -/
def spec_subject_iri (ns entityType pk : String) : String :=
  ns ++ "/" ++ entityType ++ "/" ++ pk

/-- C6.  The subject-IRI builder is pure and deterministic: the IRI depends
only on the entity type (class name) and primary key — not on the payload
or any other state — and it has exactly the spec's shape
`{namespace}/{entityType}/{id}`. -/
theorem subject_uri_deterministic (i₁ i₂ : Instance)
    (hc : i₁.className = i₂.className) (hid : i₁.objId = i₂.objId) :
    _get_uri_for_entity i₁ = _get_uri_for_entity i₂
    ∧ _get_uri_for_entity i₁ =
        spec_subject_iri "http://example.org/football"
          (strToLower i₁.className) (Nat.repr i₁.objId) := by
  constructor
  · unfold _get_uri_for_entity
    rw [hc, hid]
  · unfold _get_uri_for_entity spec_subject_iri FOOTBALL
    rw [show ("http://example.org/football/" : String) =
        "http://example.org/football" ++ "/" from by decide]

/-- Witness for C6: two `Team` 42 instances with different payloads get the
same IRI, of the spec's shape. -/
theorem subject_uri_deterministic_witness :
    _get_uri_for_entity ⟨"Team", 42, []⟩ =
      _get_uri_for_entity ⟨"Team", 42, [("name", PyValue.pyLit "Arsenal")]⟩
    ∧ _get_uri_for_entity ⟨"Team", 42, []⟩ =
        spec_subject_iri "http://example.org/football"
          (strToLower (Instance.className ⟨"Team", 42, []⟩))
          (Nat.repr (Instance.objId ⟨"Team", 42, []⟩)) :=
  subject_uri_deterministic ⟨"Team", 42, []⟩
    ⟨"Team", 42, [("name", PyValue.pyLit "Arsenal")]⟩ rfl rfl

/-! ## C7: events of unmapped entity types are skipped -/

/-- With an everywhere-succeeding step, the `process_buffer` loop is a plain
fold over the buffer. -/
theorem run_buffer_loop_ok (f : Graph → Change → Graph) (g : Graph)
    (l : List Change) :
    run_buffer_loop (fun g ch => .ok (f g ch)) g l =
      .ok (l.foldl
        (fun g ch =>
          if ch.operation = "c" ∨ ch.operation = "u" then f g ch else g) g) := by
  induction l generalizing g with
  | nil => rfl
  | cons ch rest ih =>
    rw [run_buffer_loop, List.foldl_cons]
    split
    · exact ih _
    · exact ih _

/-- `process_buffer` transforms each buffered Create/Update change in order
and clears the buffer. -/
theorem process_buffer_foldl (c : CDCConsumer) :
    process_buffer c =
      ⟨c.buffer.foldl
        (fun g ch =>
          if ch.operation = "c" ∨ ch.operation = "u" then
            transformer_transform_instance g ch.inst
          else g) c.graph, [], c.buffer_size⟩ := by
  unfold process_buffer process_buffer_with
  rw [run_buffer_loop_ok]

/-- C7.  An event whose entity type has no entry in the entity-mapping
registry (the lookup yields the `None` of `UnknownEntityType`) is skipped
without crashing: `transform_instance` produces no statement for it, and
buffer processing proceeds exactly as if the event were absent, so
subsequent events are still processed.  (`transform.py` checks its
`config.py` registry; the transformer instantiated by the consumer checks
its own hard-coded registry, hence the two lookup hypotheses.) -/
theorem unmapped_type_skipped (inst : Instance)
    (h : ENTITY_MAPPINGS.lookup inst.className = none)
    (htr : TRANSFORMER_ENTITY_MAPPINGS.lookup inst.className = none) :
    (∀ g : Graph, transform_instance g inst = g)
    ∧ (∀ (g : Graph) (n : Nat) (ch : Change), ch.inst = inst →
        ∀ pre post : List Change,
          process_buffer ⟨g, pre ++ ch :: post, n⟩ =
            process_buffer ⟨g, pre ++ post, n⟩) := by
  constructor
  · intro g
    exact transform_instance_with_unmapped _ g inst h
  · intro g n ch hch pre post
    have hstep : ∀ gb : Graph,
        (if ch.operation = "c" ∨ ch.operation = "u" then
          transformer_transform_instance gb ch.inst
        else gb) = gb := by
      intro gb
      split
      · rw [hch]
        exact transform_instance_with_unmapped _ gb inst htr
      · rfl
    rw [process_buffer_foldl, process_buffer_foldl]
    simp only [List.foldl_append, List.foldl_cons, hstep]

/-- Witness for C7 at an entity type outside both registries. -/
theorem unmapped_type_skipped_witness :
    (∀ g : Graph, transform_instance g ⟨"Widget", 1, []⟩ = g)
    ∧ (∀ (g : Graph) (n : Nat) (ch : Change),
        ch.inst = ⟨"Widget", 1, []⟩ →
        ∀ pre post : List Change,
          process_buffer ⟨g, pre ++ ch :: post, n⟩ =
            process_buffer ⟨g, pre ++ post, n⟩) :=
  unmapped_type_skipped ⟨"Widget", 1, []⟩ (by decide) (by decide)

/-! ## C8: malformed messages -/

/-- A small concrete database: table `country` resolves to model `Country`;
no row is ever found. -/
def db0 : Db :=
  ⟨fun t => if t = "country" then some "Country" else none, fun _ _ => none⟩

/-- A fresh consumer state. -/
def c0 : CDCConsumer := ⟨∅, [], 1000⟩

/-- C8 counterexample.  A message with the unknown operation code `"x"` is
skipped, but `process_message` prints nothing for it: the claim that every
malformed message (including an unknown operation code) "yields a logged
DecodeError" is false — the `if/elif` chain falls through silently. -/
theorem unknown_op_not_logged :
    process_message db0 c0 ⟨some "country", some "x", some 1⟩ = (c0, none) := by
  decide

/-- C8 as amended.  A message missing its operation or (for Create/Update)
its primary key yields a logged error and only that message is skipped,
with the consumer state unchanged; a message with an unknown operation code
is also skipped with the state unchanged but silently (nothing logged); and
in every such case the failure is isolated: the handler returns normally
and the loop processes the remaining messages exactly as if the skipped
message had never arrived. -/
theorem malformed_message_isolated :
    (∀ (db : Db) (c : CDCConsumer) (tbl : String) (pid : Option Nat),
      process_message db c ⟨some tbl, none, pid⟩ =
        (c, some ("Error processing message: " ++ "KeyError")))
    ∧ (∀ (db : Db) (c : CDCConsumer) (tbl M o : String),
        db.get_model tbl = some M → (o = "c" ∨ o = "u") →
        process_message db c ⟨some tbl, some o, none⟩ =
          (c, some ("Error processing message: " ++ "KeyError")))
    ∧ (∀ (db : Db) (c : CDCConsumer) (tbl M o : String) (pid : Option Nat),
        db.get_model tbl = some M → o ≠ "c" → o ≠ "u" → o ≠ "d" →
        c.buffer.length < c.buffer_size →
        process_message db c ⟨some tbl, some o, pid⟩ = (c, none))
    ∧ (∀ (db : Db) (c : CDCConsumer) (msg : RawMessage)
        (rest : List RawMessage),
        (process_message db c msg).1 = c →
        run_messages db c (msg :: rest) = run_messages db c rest) := by
  refine ⟨?_, ?_, ?_, ?_⟩
  · intro db c tbl pid
    simp [process_message, process_message_body, raising, Bind.bind, Except.bind]
  · rintro db c tbl M o hget (rfl | rfl) <;>
      simp [process_message, process_message_body, raising, Bind.bind, Except.bind, hget]
  · intro db c tbl M o pid hget hc hu hd hlt
    simp [process_message, process_message_body, raising, Bind.bind, Except.bind,
      pure, Except.pure, hget, hc, hu, hd, Nat.not_le.mpr hlt]
  · intro db c msg rest h
    simp only [run_messages, List.foldl_cons, h]

/-- Witness for the amended C8: a Create message with no primary key is
logged and skipped. -/
theorem malformed_message_isolated_witness :
    process_message db0 c0 ⟨some "country", some "c", none⟩ =
      (c0, some ("Error processing message: " ++ "KeyError")) :=
  malformed_message_isolated.2.1 db0 c0 "country" "Country" "c" (by decide)
    (Or.inl rfl)

/-! ## C3: a failed buffer commit -/

/-- C3.  `process_buffer` ends with `self.buffer = []` on **every** path,
including the exception handler: a failing step is retried zero times and
the batch is discarded, not quarantined.  The concrete conjuncts evaluate
the failure path: a step that always raises (`store unavailable`) still
leaves an empty buffer, with only a printed message. -/
theorem commit_failure_discards_buffer :
    (∀ (step : Graph → Change → Except String Graph) (c : CDCConsumer),
      (process_buffer_with step c).1.buffer = [])
    ∧ (process_buffer_with (fun _ _ => .error "store unavailable")
        ⟨∅, [⟨"c", ⟨"Country", 3, []⟩, "Country"⟩], 1000⟩).1.buffer = []
    ∧ (process_buffer_with (fun _ _ => .error "store unavailable")
        ⟨∅, [⟨"c", ⟨"Country", 3, []⟩, "Country"⟩], 1000⟩).2 =
        some ("Error processing buffer: " ++ "store unavailable") := by
  refine ⟨?_, by decide, by decide⟩
  intro step c
  unfold process_buffer_with
  cases h : run_buffer_loop step c.graph c.buffer with
  | ok g => rfl
  | error eg => rfl

/-! ## C4: delete events -/

/-- The type statement of entity `team/42`. -/
def team42_type_stmt : Triple :=
  ⟨FOOTBALL ++ "team/42", RDF_type, Node.uri (football "Team")⟩

/-- A database resolving table `team`, and a consumer whose graph already
holds the `team/42` type statement. -/
def db_team : Db :=
  ⟨fun t => if t = "team" then some "Team" else none, fun _ _ => none⟩

def consumer_with_team42 : CDCConsumer := ⟨{team42_type_stmt}, [], 1000⟩

/-- C4.  A Delete event reaches the `elif operation == 'd': pass` branch:
the consumer state is completely unchanged, so the statement whose subject
is `uri(team, 42)` is still in the graph afterwards — nothing is ever
removed, where the claim requires every statement with that subject to be
removed. -/
theorem delete_event_removes_nothing :
    (process_message db_team consumer_with_team42
        ⟨some "team", some "d", some 42⟩).1 = consumer_with_team42
    ∧ team42_type_stmt.subj = _get_uri_for_entity ⟨"Team", 42, []⟩
    ∧ team42_type_stmt ∈
        (process_message db_team consumer_with_team42
          ⟨some "team", some "d", some 42⟩).1.graph := by
  refine ⟨by decide, by decide, by decide⟩

/-! ## C2: the version-chain invariant -/

/-- The versioned store before any version is created. -/
def version_store_0 : VersionedRDFStore := ⟨"http://example.org/store", ∅⟩

/-- The first `create_version` call: add one statement. -/
def version_1 : VersionedRDFStore × String × Graph :=
  create_version version_store_0 [⟨"add", team42_type_stmt⟩]
    "2024-01-01T00:00:00"

/-- The second `create_version` call, with an empty change list. -/
def version_2 : VersionedRDFStore × String × Graph :=
  create_version version_1.1 [] "2024-01-02T00:00:00"

/-- C2.  The chain invariant fails on the code: version 1's statement set
is `{t}`, but version 2 — built with an empty delta, so the invariant
demands `version 2 = version 1 minus ∅ plus ∅ = {t}` — has the empty
statement set, because `create_version` always starts from the never-
updated `self.current_graph`.  Moreover `get_version` returns `None` for
every version id (its body is `pass`), so replaying the chain can never be
compared against `get(latestVersionId)`'s collection, let alone reproduce
it. -/
theorem version_chain_invariant_broken :
    version_1.2.2 = {team42_type_stmt}
    ∧ version_2.2.2 ≠ List.foldl apply_change version_1.2.2 []
    ∧ get_version version_2.1 version_2.2.1 = none := by
  refine ⟨by decide, by decide, rfl⟩

/-! ## C10: `create_version` never mutates the current graph -/

/-- C10 (implicit).  A sequence of `create_version` calls leaves the
store's `current_graph` identical to what it was before the first call,
and consequently every call builds its version from the same unchanged
base graph — never from the previously created version. -/
theorem create_version_preserves_current_graph (st : VersionedRDFStore)
    (calls : List (List GraphChange × String)) :
    run_create_versions st calls =
      (st, calls.map fun call =>
        (st.store_uri ++ "/version/" ++ call.2,
          call.1.foldl apply_change st.current_graph)) := by
  induction calls with
  | nil => rfl
  | cons call rest ih =>
    simp only [run_create_versions, create_version, ih, List.map_cons]

end RdfTransform
